import Mathlib

/-!
Verification of the serverless adapter (`api/index.ts`, full variant) and the
admin session manager of the 71-digital repository.

The adapter is embedded as a pure dispatch pipeline over an explicit
initialization environment: `initializeApp` registers, in order, an API stage
(real routes, or a diagnostic fallback when `DATABASE_URL` is absent or route
registration throws), a static-asset stage for `dist/public/assets`, a
catch-all stage (SPA fallback when `index.html` exists, a missing-build
responder otherwise), and a terminal error handler.  `dispatch` runs one
request through those stages exactly as Express 4 would, including two
framework subtleties: route patterns such as `/api/*` are matched
case-insensitively, and `app.use("*")` strips the matched path before
invoking its handler, which therefore observes `req.path = "/"` for every
request.
-/

namespace Adapter

/-- An inbound HTTP request as the adapter sees it: a method and a path. -/
structure Request where
  method : String
  path : String
deriving DecidableEq, Repr

/-- The JSON fields used by the error payloads of the adapter (`error`, `message`,
`hint`); absent fields are `none`. -/
structure JsonBody where
  error : Option String := none
  message : Option String := none
  hint : Option String := none
deriving DecidableEq, Repr

/-- A response body: a JSON object or raw file content. -/
inductive Body
  | json (j : JsonBody)
  | file (content : String)
deriving DecidableEq, Repr

/-- An HTTP response: status, the headers the adapter sets, and a body. -/
structure Response where
  status : Nat
  contentType : Option String := none
  cacheControl : Option String := none
  body : Body
deriving DecidableEq, Repr

/-- A thrown JavaScript error as the error-handling stages inspect it:
optional numeric `status` / `statusCode` fields, an optional `message`
(`none` models a thrown non-`Error` value), and an optional `stack`. -/
structure Err where
  status : Option Nat := none
  statusCode : Option Nat := none
  message : Option String := none
  stack : Option String := none
deriving DecidableEq, Repr

/-- The environment observed during `initializeApp`: the `DATABASE_URL`
variable, whether the dynamic import of the route table succeeds (and the
message of the import error when it does not), the working directory, whether
`dist/public` and its `index.html` exist, the asset file names under
`dist/public/assets`, whether `readFileSync(indexPath)` succeeds, its content
on success and the thrown error on failure. -/
structure Env where
  databaseUrl : Option String
  routesImportOk : Bool
  importErrorMessage : Option String
  cwd : String
  distPathExists : Bool
  assetFiles : List String
  indexPathExists : Bool
  indexReadOk : Bool
  indexContent : String
  readError : Err
deriving Repr

/-- Models `path.resolve(process.cwd(), "dist", "public")`. -/
def distPath (env : Env) : String := env.cwd ++ "/dist/public"

/-- Models `path.resolve(distPath, "index.html")`. -/
def indexPath (env : Env) : String := distPath env ++ "/index.html"

/-- Models `s.startsWith(p)` of JavaScript: `p` is a character-wise prefix of `s`. -/
def pathStarts (s p : String) : Bool := decide (p.data <+: s.data)

/-- Case-insensitive prefix test: Express 4 compiles route and mount paths
to case-insensitive regular expressions by default, so pattern matching
compares paths after lowercasing. -/
def ciStarts (s p : String) : Bool :=
  decide ((p.data.map Char.toLower) <+: (s.data.map Char.toLower))

/-- Models the Express 4 route pattern `/api/*`: it compiles to the
case-insensitive regular expression `^\/api\/(.*)\/?$`, which matches
exactly the paths whose first five characters spell `/api/` up to case.
The bare path `/api` does not match. -/
def matchesApiStar (p : String) : Bool := ciStarts p "/api/"

/-- JavaScript `a || d` on an optional number: `0` and absence are falsy. -/
def jsOrNum (a : Option Nat) (d : Nat) : Nat :=
  match a with
  | some n => if n = 0 then d else n
  | none => d

/-- JavaScript `a || d` on an optional string: `""` and absence are falsy. -/
def jsOrStr (a : Option String) (d : String) : String :=
  match a with
  | some s => if s = "" then d else s
  | none => d

/-- Models `e instanceof Error ? e.message : "Unknown error"`. -/
def jsErrMessage (m : Option String) : String :=
  match m with
  | some s => s
  | none => "Unknown error"

/-- The 500 payload of the `app.all("/api/*")` fallback installed when
`DATABASE_URL` is unset. -/
def dbNotConfiguredResponse : Response :=
  { status := 500
    body := .json
      { error := some "Database not configured"
        message := some "DATABASE_URL environment variable is not set. Please configure it in Vercel project settings." } }

/-- The 500 payload of the `app.all("/api/*")` fallback installed when route
registration throws. -/
def serverConfigErrorResponse (msg : String) : Response :=
  { status := 500
    body := .json { error := some "Server configuration error", message := some msg } }

/-- The 404 sent by the catch-all for API paths that no route matched. -/
def apiNotFoundResponse : Response :=
  { status := 404, body := .json { error := some "API endpoint not found" } }

/-- The 404 sent by the catch-all for non-API requests with a method other than
GET or HEAD. -/
def notFoundResponse : Response :=
  { status := 404, body := .json { error := some "Not found" } }

/-- The SPA root document response the catch-all sends. -/
def spaResponse (env : Env) : Response :=
  { status := 200
    contentType := some "text/html; charset=utf-8"
    cacheControl := some "no-cache, no-store, must-revalidate"
    body := .file env.indexContent }

/-- The 500 sent for non-API paths when `index.html` is missing; its message
interpolates the expected filesystem location. -/
def notBuiltResponse (env : Env) : Response :=
  { status := 500
    body := .json
      { error := some "Application not built correctly"
        message := some ("index.html not found at: " ++ indexPath env) } }

/-- What one Express layer does with a request: send a response, call
`next()`, or call `next(err)`. -/
inductive Step
  | sent (r : Response)
  | next
  | nextErr (e : Err)
deriving DecidableEq, Repr

/-- What a registered API route does with a matched request: respond, or
throw during handling. -/
inductive RouteResult
  | ok (r : Response)
  | err (e : Err)
deriving DecidableEq, Repr

/-- Modelled from the spec: the real API route table built by
`registerRoutes` (its module, `server/routes`, is not among the sources); a
partial map from requests to an outcome, mounted under the API path prefix. -/
def RouteTable := Request → Option RouteResult

/-- The route table registers handlers only under the `/api` prefix
(the spec: API routes are mounted under a reserved path prefix; Express
matches route paths case-insensitively). -/
def RoutesApiOnly (routes : RouteTable) : Prop :=
  ∀ req, routes req ≠ none → ciStarts req.path "/api" = true

/-- The API stage: with no `DATABASE_URL`, the `app.all("/api/*")`
database fallback (the case-insensitive Express pattern `/api/*` matches
exactly the paths that start with `/api/` up to case); with a database and
a successful import, the real routes; with a failed import, the
registration-failure fallback. -/
def apiStage (env : Env) (routes : RouteTable) (req : Request) : Step :=
  match env.databaseUrl with
  | none =>
    if matchesApiStar req.path then .sent dbNotConfiguredResponse else .next
  | some _ =>
    if env.routesImportOk then
      match routes req with
      | some (.ok r) => .sent r
      | some (.err e) => .nextErr e
      | none => .next
    else
      if matchesApiStar req.path then
        .sent (serverConfigErrorResponse (jsErrMessage env.importErrorMessage))
      else .next

/-- Models `s.endsWith(p)` of JavaScript: `p` is a character-wise suffix of `s`. -/
def strEnds (s p : String) : Bool := decide (p.data <:+ s.data)

/-- The Content-Type override performed by `setHeaders` of the assets middleware
(`.js` and `.css` only; other extensions keep the default mime type,
modelled as `none`). -/
def assetContentType (f : String) : Option String :=
  if strEnds f ".js" then some "application/javascript; charset=utf-8"
  else if strEnds f ".css" then some "text/css; charset=utf-8"
  else none

/-- Models `express.static` mounted at `/assets` with `maxAge: "1y", immutable`:
serves an existing file under the mount on GET/HEAD, otherwise falls
through. -/
def serveAsset (env : Env) (req : Request) : Option Response :=
  if req.method = "GET" ∨ req.method = "HEAD" then
    match env.assetFiles.find? (fun f => req.path == "/assets/" ++ f) with
    | some f =>
      some { status := 200
             contentType := assetContentType f
             cacheControl := some "public, max-age=31536000, immutable"
             body := .file f }
    | none => none
  else none

/-- The static stage: the assets middleware is registered only when
`dist/public` exists. -/
def staticStage (env : Env) (req : Request) : Option Response :=
  if env.distPathExists then serveAsset env req else none

/-- The handler body of the catch-all registered when `index.html` exists,
embedded as written: 404 for API paths, `next()` for asset/favicon paths,
404 for non-GET/HEAD methods, otherwise the SPA document (or
`next(fileError)` when the read throws).  Express 4 strips the matched
portion of the path before invoking an `app.use("*")` handler, so `dispatch`
invokes this handler on the trimmed path `/` (the original path sits in
`req.baseUrl`, which the handler never reads): the three path tests compare
`/` and never fire. -/
def catchAllWithIndex (env : Env) (req : Request) : Step :=
  if pathStarts req.path "/api" then .sent apiNotFoundResponse
  else if pathStarts req.path "/assets" ∨ req.path = "/favicon.png" then .next
  else if req.method ≠ "GET" ∧ req.method ≠ "HEAD" then .sent notFoundResponse
  else if env.indexReadOk then .sent (spaResponse env)
  else .nextErr env.readError

/-- The handler body of the catch-all registered when `index.html` is
missing, embedded as written: 404 for API paths, the missing-build 500 for
everything else.  As with `catchAllWithIndex`, the `app.use("*")` path
trimming means the handler observes the path `/`, so its API branch never
fires and every request it receives gets the missing-build 500. -/
def catchAllNoIndex (env : Env) (req : Request) : Response :=
  if pathStarts req.path "/api" then apiNotFoundResponse
  else notBuiltResponse env

/-- The terminal Express error handler: silent when headers were already
sent, otherwise `err.status || err.statusCode || 500` with
`{ error: err.message || "Internal Server Error" }`. -/
def errorHandler (e : Err) (headersSent : Bool) : Option Response :=
  if headersSent then none
  else
    some { status := jsOrNum e.status (jsOrNum e.statusCode 500)
           body := .json { error := some (jsOrStr e.message "Internal Server Error") } }

/-- The outer catch of `vercelHandler`: when no headers were sent, a 500
with a fixed error string, the message of the thrown error when it is an
`Error`, and a fixed hint. -/
def vercelCatch (e : Err) (headersSent : Bool) : Option Response :=
  if headersSent then none
  else
    some { status := 500
           body := .json
             { error := some "Internal server error"
               message := some (jsErrMessage e.message)
               hint := some "Check Vercel function logs for more details" } }

/-- The result of running one request through the initialized app: a sent
response, or a fall-through past every layer (left to the platform). -/
inductive Outcome
  | sent (r : Response)
  | fallthrough
deriving DecidableEq, Repr

/-- One request through the registered stages in order: API stage, static
assets, catch-all, with `next(err)` routed to the terminal error handler.
When the request reaches the catch-all, Express has trimmed the matched
`app.use("*")` path, so the catch-all handler is invoked with path `/`
whatever the original request path was. -/
def dispatch (env : Env) (routes : RouteTable) (req : Request) : Outcome :=
  match apiStage env routes req with
  | .sent r => .sent r
  | .nextErr e =>
    match errorHandler e false with
    | some r => .sent r
    | none => .fallthrough
  | .next =>
    match staticStage env req with
    | some r => .sent r
    | none =>
      if env.indexPathExists then
        match catchAllWithIndex env { method := req.method, path := "/" } with
        | .sent r => .sent r
        | .next => .fallthrough
        | .nextErr e =>
          match errorHandler e false with
          | some r => .sent r
          | none => .fallthrough
      else .sent (catchAllNoIndex env { method := req.method, path := "/" })

end Adapter

namespace InitCoord

/-!
The memoized initialization of `vercelHandler`.  JavaScript runs each
synchronous prologue (the `if (!initializationPromise)` test and the
assignment of `initializeApp().then(...).catch(...)`) to completion without
interleaving, so a process history is a sequence of atomic events: an
invocation arriving (running that prologue and then awaiting the stored
promise), or the single stored promise settling (through `.then` on success
or `.catch` on failure, both of which install the serverless handler).
-/

/-- An atomic event on the warm process: the synchronous part of a handler invocation: its
prologue, or the settlement of the initialization promise (`ok` is true for
the `.then` branch, false for the `.catch` branch). -/
inductive Event
  | arrive
  | resolve (ok : Bool)
deriving DecidableEq, Repr

/-- The process-scoped state: whether `initializationPromise` is non-null,
how many times `initializeApp()` has been started, the settled outcome (if
any), how many invocations are awaiting settlement, and the outcomes
observed by invocations that finished awaiting. -/
structure St where
  promiseSet : Bool
  attempts : Nat
  outcome : Option Bool
  pending : Nat
  observed : List Bool
deriving DecidableEq, Repr

/-- The cold-start state: no promise, no attempts, nothing observed. -/
def start : St :=
  { promiseSet := false, attempts := 0, outcome := none, pending := 0, observed := [] }

/-- One event: an arrival creates the promise only when it is null (that
arrival and later ones await it; after settlement an arrival observes the
stored outcome at once), and a settlement delivers the one outcome to every
waiter.  A settlement without an unsettled promise cannot occur and is a
no-op. -/
def step (s : St) : Event → St
  | .arrive =>
    match s.promiseSet, s.outcome with
    | false, _ =>
      { s with promiseSet := true, attempts := s.attempts + 1, pending := s.pending + 1 }
    | true, none => { s with pending := s.pending + 1 }
    | true, some b => { s with observed := b :: s.observed }
  | .resolve b =>
    if s.promiseSet = true ∧ s.outcome = none then
      { s with outcome := some b
               observed := List.replicate s.pending b ++ s.observed
               pending := 0 }
    else s

/-- The state after a history of events on a cold process. -/
def run (es : List Event) : St := es.foldl step start

end InitCoord

namespace SessionMgr

/-- Modelled from the spec: an admin session record (the module of the
session manager is not among the sources) — an opaque token, the owning
identifier, and an absolute expiry timestamp. -/
structure AdminSession where
  token : String
  adminId : Nat
  expiresAt : Nat
deriving DecidableEq, Repr

/-- Modelled from the spec: session validation — look the bearer token up in
storage, fail if no record carries it, fail if the stored absolute expiry
has passed at validation time, otherwise resolve the owning admin. -/
def validateSession (store : List AdminSession) (token : String) (now : Nat) :
    Option Nat :=
  match store.find? (fun s => s.token == token) with
  | none => none
  | some s => if s.expiresAt < now then none else some s.adminId

end SessionMgr

namespace Adapter

/-- The empty route table, used where the content of the real table is
irrelevant (it trivially satisfies `RoutesApiOnly`). -/
def routesNone : RouteTable := fun _ => none

/-- Checks whether `pat` occurs as a contiguous substring of `hay`. -/
def strMentions (hay pat : String) : Bool := decide (pat.data <:+: hay.data)

/-- A healthy cold start with the database unset: `dist/public` is built and
`index.html` is present and readable. -/
def envDbAbsent : Env :=
  { databaseUrl := none, routesImportOk := true, importErrorMessage := none
    cwd := "/var/task", distPathExists := true, assetFiles := []
    indexPathExists := true, indexReadOk := true, indexContent := "<html>app</html>"
    readError := {} }

/-- A healthy cold start with the database configured and the route table
registered. -/
def envRoutesOk : Env :=
  { databaseUrl := some "postgres://db.example/app", routesImportOk := true
    importErrorMessage := none
    cwd := "/var/task", distPathExists := true, assetFiles := []
    indexPathExists := true, indexReadOk := true, indexContent := "<html>app</html>"
    readError := {} }

/-- A cold start with the database configured but the dynamic import of the
route table failing. -/
def envImportFail : Env :=
  { databaseUrl := some "postgres://db.example/app", routesImportOk := false
    importErrorMessage := some "Cannot find module"
    cwd := "/var/task", distPathExists := true, assetFiles := []
    indexPathExists := true, indexReadOk := true, indexContent := "<html>app</html>"
    readError := {} }

/-- A cold start where the build output lacks `index.html` (and the assets
directory is empty). -/
def envNoBuild : Env :=
  { databaseUrl := none, routesImportOk := true, importErrorMessage := none
    cwd := "/var/task", distPathExists := true, assetFiles := []
    indexPathExists := false, indexReadOk := false, indexContent := ""
    readError := {} }

/-- A cold start where `index.html` is missing but one asset file survives
under `dist/public/assets`. -/
def envNoIndexAssets : Env :=
  { databaseUrl := none, routesImportOk := true, importErrorMessage := none
    cwd := "/var/task", distPathExists := true, assetFiles := ["app.js"]
    indexPathExists := false, indexReadOk := false, indexContent := ""
    readError := {} }

/-- A concrete thrown error carrying an explicit status and a stack. -/
def errTeapot : Err :=
  { status := some 418, statusCode := none, message := some "teapot"
    stack := some "Error: teapot at Object.handler (/var/task/api/index.js:5:3)" }

end Adapter

namespace InitCoord

/-- The invariant maintained by every event: at most one initialization
attempt ever starts; before the promise exists nothing has happened; no
outcome is observed before settlement; every observed outcome is the one
settled outcome. -/
def Inv (s : St) : Prop :=
  s.attempts ≤ 1 ∧
  (s.promiseSet = false → s.attempts = 0 ∧ s.outcome = none ∧ s.observed = []) ∧
  (s.outcome = none → s.observed = []) ∧
  (∀ b, b ∈ s.observed → s.outcome = some b)

end InitCoord

namespace SessionMgr

/-- A concrete one-session store whose single record is expired at time 101. -/
def sessStore : List AdminSession :=
  [{ token := "tok123", adminId := 7, expiresAt := 100 }]

end SessionMgr

namespace Adapter

/-- Unfolding of the case-insensitive prefix test. -/
lemma ciStarts_iff (s p : String) :
    ciStarts s p = true ↔ (p.data.map Char.toLower) <+: (s.data.map Char.toLower) := by
  simp [ciStarts]

/-- A path matching the Express pattern `/api/*` is in particular
API-prefixed up to case. -/
lemma ci_api_of_apiSlash (s : String) (h : ciStarts s "/api/" = true) :
    ciStarts s "/api" = true := by
  rw [ciStarts_iff] at h ⊢
  exact List.IsPrefix.trans (by decide) h

/-- A path that is not API-prefixed up to case does not match the Express
pattern `/api/*` either. -/
lemma matchesApiStar_false (s : String) (h : ciStarts s "/api" = false) :
    matchesApiStar s = false := by
  cases h' : matchesApiStar s
  · rfl
  · rw [ci_api_of_apiSlash s h'] at h
    exact absurd h (by simp)

/-- A path shorter than the assets mount path never names a file below the
mount. -/
lemma ne_asset_of_length (s f : String) (h : s.length < 8) :
    (s == "/assets/" ++ f) = false := by
  by_contra hb
  rw [Bool.not_eq_false, beq_iff_eq] at hb
  have hl := congrArg String.length hb
  rw [String.length_append] at hl
  have h2 : ("/assets/" : String).length = 8 := rfl
  omega

/-- The static stage passes on every request whose path is shorter than the
assets mount path. -/
lemma staticStage_none_of_short (env : Env) (m s : String) (h : s.length < 8) :
    staticStage env ⟨m, s⟩ = none := by
  have hfind : env.assetFiles.find? (fun f => s == "/assets/" ++ f) = none := by
    rw [List.find?_eq_none]
    intro f _
    simp [ne_asset_of_length s f h]
  unfold staticStage serveAsset
  cases env.distPathExists <;> simp [hfind]

/-- The API stage passes every request that is not API-prefixed (up to
case) on to the next stage, whatever the configuration. -/
lemma apiStage_next (env : Env) (routes : RouteTable) (req : Request)
    (hapi : RoutesApiOnly routes) (hp : ciStarts req.path "/api" = false) :
    apiStage env routes req = .next := by
  have hps := matchesApiStar_false req.path hp
  have hr : routes req = none := by
    by_contra hne
    rw [hapi req hne] at hp
    exact absurd hp (by simp)
  unfold apiStage
  cases hdb : env.databaseUrl
  · simp [hps]
  · cases himp : env.routesImportOk <;> simp [hps, hr]

/-- C4: the terminal error handler, provided no response was already sent,
answers with a JSON body whose status is the explicit `status` field of the
error, else its `statusCode` field, else 500, and whose `error` field is the
message of the error (or a fixed fallback text); when a response was already
sent it stays silent. -/
theorem error_handler_contract (e : Err) :
    errorHandler e true = none ∧
    (∀ n, e.status = some n → n ≠ 0 →
      errorHandler e false =
        some { status := n
               body := .json { error := some (jsOrStr e.message "Internal Server Error") } }) ∧
    (e.status = none → ∀ n, e.statusCode = some n → n ≠ 0 →
      errorHandler e false =
        some { status := n
               body := .json { error := some (jsOrStr e.message "Internal Server Error") } }) ∧
    (e.status = none → e.statusCode = none →
      errorHandler e false =
        some { status := 500
               body := .json { error := some (jsOrStr e.message "Internal Server Error") } }) := by
  refine ⟨rfl, ?_, ?_, ?_⟩
  · intro n hn hnz
    simp [errorHandler, jsOrNum, hn, hnz]
  · intro h0 n hn hnz
    simp [errorHandler, jsOrNum, h0, hn, hnz]
  · intro h0 h1
    simp [errorHandler, jsOrNum, h0, h1]

/-- Witness for C4 at a concrete error with status 418. -/
theorem error_handler_contract_instance :
    errorHandler errTeapot true = none ∧
    errorHandler errTeapot false =
      some { status := 418, body := .json { error := some "teapot" } } :=
  ⟨(error_handler_contract errTeapot).1,
   (error_handler_contract errTeapot).2.1 418 rfl (by decide)⟩

/-- C7 amended: neither error-handling stage ever lets the stack of the
thrown error influence the client-visible response (no stack traces are
exposed); the internal-path half of the original claim is refuted by the
counterexample, since the missing-build 500 interpolates the expected
`index.html` filesystem path into its message. -/
theorem error_bodies_stack_independent (e : Err) (s : Option String) (b : Bool) :
    errorHandler { e with stack := s } b = errorHandler e b ∧
    vercelCatch { e with stack := s } b = vercelCatch e b :=
  ⟨rfl, rfl⟩

/-- C7 counterexample: with `index.html` absent, a GET to the root receives
a 500 whose JSON message contains the internal filesystem path of the
expected SPA document, so an error response does expose an internal path. -/
theorem missing_build_path_exposure_counterexample :
    dispatch envNoBuild routesNone ⟨"GET", "/"⟩ =
      .sent { status := 500
              body := .json
                { error := some "Application not built correctly"
                  message := some "index.html not found at: /var/task/dist/public/index.html" } } ∧
    strMentions "index.html not found at: /var/task/dist/public/index.html"
      (indexPath envNoBuild) = true := by
  constructor
  · decide
  · decide

end Adapter

namespace Adapter

/-- C2 counterexample: with the database unset and the app fully built, a
GET to the bare path `/api` — which is API-prefixed in the sense of
`startsWith("/api")` — receives the SPA root document with status 200, not
the 500 configuration-error payload: the Express pattern `/api/*` does not
match the bare `/api`, and the catch-all, observing the trimmed path `/`,
serves `index.html`. -/
theorem db_absent_bare_api_spa_counterexample :
    dispatch envDbAbsent routesNone ⟨"GET", "/api"⟩ = .sent (spaResponse envDbAbsent) ∧
    (spaResponse envDbAbsent).status = 200 := by
  constructor
  · decide
  · rfl

/-- C2 amended: with `DATABASE_URL` absent, every request whose path matches
the fallback pattern `/api/*` (case-insensitively starts with `/api/`)
receives the 500 database-not-configured JSON payload; the bare path
`/api`, although API-prefixed, is not matched and a GET to it is served the
SPA document by the catch-all; a GET to the root path likewise receives the
SPA document with status 200 — both whenever `index.html` is present and
readable. -/
theorem db_absent_api_500_spa_200 (env : Env) (routes : RouteTable) (req : Request)
    (hdb : env.databaseUrl = none) :
    (matchesApiStar req.path = true →
      dispatch env routes req = .sent dbNotConfiguredResponse) ∧
    (env.indexPathExists = true → env.indexReadOk = true →
      dispatch env routes ⟨"GET", "/"⟩ = .sent (spaResponse env)) ∧
    (env.indexPathExists = true → env.indexReadOk = true →
      dispatch env routes ⟨"GET", "/api"⟩ = .sent (spaResponse env)) := by
  have hcatch : ∀ p : String, env.indexPathExists = true → env.indexReadOk = true →
      apiStage env routes ⟨"GET", p⟩ = .next →
      staticStage env ⟨"GET", p⟩ = none →
      dispatch env routes ⟨"GET", p⟩ = .sent (spaResponse env) := by
    intro p hidx hread hapi hstatic
    simp [dispatch, hapi, hstatic, hidx, catchAllWithIndex, hread,
      show pathStarts "/" "/api" = false from rfl,
      show pathStarts "/" "/assets" = false from rfl,
      show ("/" : String) ≠ "/favicon.png" from by decide]
  refine ⟨?_, ?_, ?_⟩
  · intro hp
    simp [dispatch, apiStage, hdb, hp]
  · intro hidx hread
    exact hcatch "/" hidx hread
      (by simp [apiStage, hdb, show matchesApiStar "/" = false from rfl])
      (staticStage_none_of_short env "GET" "/" (by decide))
  · intro hidx hread
    exact hcatch "/api" hidx hread
      (by simp [apiStage, hdb, show matchesApiStar "/api" = false from rfl])
      (staticStage_none_of_short env "GET" "/api" (by decide))

/-- Witness for C2 amended at a concrete environment and request. -/
theorem db_absent_api_500_spa_200_instance :
    dispatch envDbAbsent routesNone ⟨"POST", "/api/contact"⟩ = .sent dbNotConfiguredResponse ∧
    dispatch envDbAbsent routesNone ⟨"GET", "/"⟩ = .sent (spaResponse envDbAbsent) :=
  ⟨(db_absent_api_500_spa_200 envDbAbsent routesNone ⟨"POST", "/api/contact"⟩ rfl).1 (by decide),
   (db_absent_api_500_spa_200 envDbAbsent routesNone ⟨"POST", "/api/contact"⟩ rfl).2.1 rfl rfl⟩

/-- C5 counterexample: with the database configured but route registration
failing, a GET to the bare path `/api` — an API-prefixed request — receives
the SPA root document with status 200 rather than the diagnostic 500: the
fallback pattern `/api/*` does not match the bare `/api`, and the
catch-all, observing the trimmed path `/`, serves `index.html`. -/
theorem routes_failure_bare_api_spa_counterexample :
    dispatch envImportFail routesNone ⟨"GET", "/api"⟩ = .sent (spaResponse envImportFail) ∧
    (spaResponse envImportFail).status = 200 := by
  constructor
  · decide
  · rfl

/-- C5 amended: if the database is configured but loading the real route
table fails, initialization still completes (dispatch is total) and the
installed fallback answers every request matching the case-insensitive
pattern `/api/*` with a 500 diagnostic JSON payload carrying the message of
the import error; the bare path `/api` is not matched and is handled by the
later stages like any other path. -/
theorem routes_failure_fallback_500 (env : Env) (routes : RouteTable) (req : Request)
    (u : String) (hdb : env.databaseUrl = some u) (himp : env.routesImportOk = false)
    (hp : matchesApiStar req.path = true) :
    dispatch env routes req =
      .sent (serverConfigErrorResponse (jsErrMessage env.importErrorMessage)) := by
  simp [dispatch, apiStage, hdb, himp, hp]

/-- Witness for C5 amended at a concrete environment and request. -/
theorem routes_failure_fallback_500_instance :
    dispatch envImportFail routesNone ⟨"PUT", "/api/x"⟩ =
      .sent (serverConfigErrorResponse "Cannot find module") :=
  routes_failure_fallback_500 envImportFail routesNone ⟨"PUT", "/api/x"⟩
    "postgres://db.example/app" rfl rfl (by decide)

/-- C3 counterexample: with the database configured and the route table
registered, a GET to `/api/nope` that no route matched reaches the
catch-all and receives the SPA root document with status 200 — not the 404
API payload the claim asserts for API-prefixed paths reaching the
catch-all — because the catch-all observes the trimmed path `/`. -/
theorem unmatched_api_gets_spa_counterexample :
    dispatch envRoutesOk routesNone ⟨"GET", "/api/nope"⟩ = .sent (spaResponse envRoutesOk) ∧
    (spaResponse envRoutesOk).status = 200 := by
  constructor
  · decide
  · rfl

/-- C3 amended: the catch-all handler observes the trimmed path `/`
whatever the original path was, so for every request reaching it (with
`index.html` present and readable) exactly one of two disjoint outcomes
occurs, decided by the method alone: GET and HEAD requests receive the SPA
root document, every other method receives the 404 Not-found JSON payload;
the API-404 and asset-skip branches of the handler text are unreachable,
and both the 404 payload and the SPA response differ from the 500
configuration-error payload. -/
theorem catch_all_dichotomy (env : Env) (m : String) (hread : env.indexReadOk = true) :
    ((m = "GET" ∨ m = "HEAD") →
      catchAllWithIndex env ⟨m, "/"⟩ = .sent (spaResponse env)) ∧
    (¬(m = "GET" ∨ m = "HEAD") →
      catchAllWithIndex env ⟨m, "/"⟩ = .sent notFoundResponse) ∧
    notFoundResponse ≠ dbNotConfiguredResponse ∧
    spaResponse env ≠ dbNotConfiguredResponse := by
  refine ⟨?_, ?_, by decide, ?_⟩
  · intro hm
    rcases hm with h | h <;>
      simp [catchAllWithIndex, hread, h,
        show pathStarts "/" "/api" = false from rfl,
        show pathStarts "/" "/assets" = false from rfl,
        show ("/" : String) ≠ "/favicon.png" from by decide]
  · intro hm
    push_neg at hm
    simp [catchAllWithIndex, hm.1, hm.2,
      show pathStarts "/" "/api" = false from rfl,
      show pathStarts "/" "/assets" = false from rfl,
      show ("/" : String) ≠ "/favicon.png" from by decide]
  · intro h
    exact absurd (congrArg Response.status h) (show ¬((200 : Nat) = 500) by decide)

/-- Witness for C3 amended at a concrete environment, on both sides of the
method split. -/
theorem catch_all_dichotomy_instance :
    catchAllWithIndex envDbAbsent ⟨"GET", "/"⟩ = .sent (spaResponse envDbAbsent) ∧
    catchAllWithIndex envDbAbsent ⟨"POST", "/"⟩ = .sent notFoundResponse :=
  ⟨(catch_all_dichotomy envDbAbsent "GET" rfl).1 (Or.inl rfl),
   (catch_all_dichotomy envDbAbsent "POST" rfl).2.1 (by decide)⟩

end Adapter

namespace Adapter

/-- C6 counterexample: with `index.html` absent but an asset file present,
a GET to that non-API asset path is served with status 200 by the static
middleware, not answered 500, so not every non-API GET receives the
missing-build 500. -/
theorem missing_index_asset_200_counterexample :
    dispatch envNoIndexAssets routesNone ⟨"GET", "/assets/app.js"⟩ =
      .sent { status := 200
              contentType := some "application/javascript; charset=utf-8"
              cacheControl := some "public, max-age=31536000, immutable"
              body := .file "app.js" } := by
  decide

/-- C6 amended: with `index.html` absent, every GET to a path that is not
API-prefixed (up to case, as Express matches routes) and that the
static-asset middleware does not serve receives the 500
application-not-built JSON payload without any unhandled exception, and an
API request matched by the registered route table is still dispatched to
it. -/
theorem missing_index_behavior (env : Env) (routes : RouteTable) (req : Request)
    (hidx : env.indexPathExists = false) (hapi : RoutesApiOnly routes) :
    (req.method = "GET" → ciStarts req.path "/api" = false →
      staticStage env req = none →
      dispatch env routes req = .sent (notBuiltResponse env)) ∧
    (∀ u r, env.databaseUrl = some u → env.routesImportOk = true →
      routes req = some (.ok r) → dispatch env routes req = .sent r) := by
  constructor
  · intro _ hp hstatic
    have hnext := apiStage_next env routes req hapi hp
    simp [dispatch, hnext, hstatic, hidx, catchAllNoIndex,
      show pathStarts "/" "/api" = false from rfl]
  · intro u r hdb himp hroutes
    simp [dispatch, apiStage, hdb, himp, hroutes]

/-- Witness for C6 amended at a concrete environment and request. -/
theorem missing_index_behavior_instance :
    dispatch envNoIndexAssets routesNone ⟨"GET", "/about"⟩ =
      .sent (notBuiltResponse envNoIndexAssets) :=
  (missing_index_behavior envNoIndexAssets routesNone ⟨"GET", "/about"⟩ rfl
    (fun _ h => absurd rfl h)).1 rfl (by decide) (by decide)

/-- C9 (claimed skip of asset and favicon paths): evaluation of the program
at the failing input.  The catch-all handler text does test
`startsWith("/assets")` and `=== "/favicon.png"` with the intent of passing
such requests onward, but Express trims the matched `app.use("*")` path, so
the handler compares `/` and the branch never fires: a GET to an asset path
that no static file matched is served the SPA root document with status
200, contradicting the inline comment of the handler and the claim. -/
theorem asset_miss_gets_spa :
    dispatch envDbAbsent routesNone ⟨"GET", "/assets/missing.js"⟩ =
      .sent (spaResponse envDbAbsent) ∧
    (spaResponse envDbAbsent).status = 200 := by
  constructor
  · decide
  · rfl

/-- C10: whenever the catch-all serves the SPA document the response has
status 200, Content-Type text/html with utf-8 charset, and the no-store
Cache-Control; and every file the assets middleware serves carries the
one-year immutable cache policy with status 200. -/
theorem spa_and_asset_headers (env : Env) (routes : RouteTable) (req : Request) :
    (RoutesApiOnly routes → env.indexPathExists = true → env.indexReadOk = true →
      staticStage env req = none →
      ciStarts req.path "/api" = false → pathStarts req.path "/assets" = false →
      req.path ≠ "/favicon.png" → (req.method = "GET" ∨ req.method = "HEAD") →
      dispatch env routes req =
        .sent { status := 200
                contentType := some "text/html; charset=utf-8"
                cacheControl := some "no-cache, no-store, must-revalidate"
                body := .file env.indexContent }) ∧
    (∀ r, serveAsset env req = some r →
      r.cacheControl = some "public, max-age=31536000, immutable" ∧ r.status = 200) := by
  constructor
  · intro hapi hidx hread hstatic hp hassets hfav hm
    have hnext := apiStage_next env routes req hapi hp
    rcases hm with h | h <;>
      simp [dispatch, hnext, hstatic, hidx, catchAllWithIndex, hread, h, spaResponse,
        show pathStarts "/" "/api" = false from rfl,
        show pathStarts "/" "/assets" = false from rfl,
        show ("/" : String) ≠ "/favicon.png" from by decide]
  · intro r hr
    unfold serveAsset at hr
    by_cases hm : req.method = "GET" ∨ req.method = "HEAD"
    · rw [if_pos hm] at hr
      cases hfind : env.assetFiles.find? (fun f => req.path == "/assets/" ++ f) with
      | none => rw [hfind] at hr; cases hr
      | some f =>
        rw [hfind] at hr
        cases hr
        exact ⟨rfl, rfl⟩
    · rw [if_neg hm] at hr
      cases hr

/-- Witness for C10: the SPA response at a concrete request, and the cache
policy of a concretely served asset. -/
theorem spa_and_asset_headers_instance :
    dispatch envDbAbsent routesNone ⟨"GET", "/pricing"⟩ =
      .sent { status := 200
              contentType := some "text/html; charset=utf-8"
              cacheControl := some "no-cache, no-store, must-revalidate"
              body := .file envDbAbsent.indexContent } ∧
    ({ status := 200
       contentType := some "application/javascript; charset=utf-8"
       cacheControl := some "public, max-age=31536000, immutable"
       body := Body.file "app.js" } : Response).cacheControl =
        some "public, max-age=31536000, immutable" ∧
    ({ status := 200
       contentType := some "application/javascript; charset=utf-8"
       cacheControl := some "public, max-age=31536000, immutable"
       body := Body.file "app.js" } : Response).status = 200 :=
  ⟨(spa_and_asset_headers envDbAbsent routesNone ⟨"GET", "/pricing"⟩).1
      (fun _ h => absurd rfl h) rfl rfl (by decide) (by decide) (by decide) (by decide)
      (Or.inl rfl),
   (spa_and_asset_headers envNoIndexAssets routesNone ⟨"GET", "/assets/app.js"⟩).2 _ (by decide)⟩

end Adapter

namespace InitCoord

/-- The invariant holds on a cold process. -/
lemma inv_start : Inv start := by
  refine ⟨by decide, fun _ => ⟨rfl, rfl, rfl⟩, fun _ => rfl, fun b hb => ?_⟩
  cases hb

/-- Every event preserves the invariant. -/
lemma inv_step (s : St) (e : Event) (h : Inv s) : Inv (step s e) := by
  obtain ⟨h1, h2, h3, h4⟩ := h
  cases e with
  | arrive =>
    cases hps : s.promiseSet with
    | false =>
      obtain ⟨ha, ho, hob⟩ := h2 hps
      simp only [step, hps]
      refine ⟨?_, ?_, fun hn => h3 hn, fun b hb => h4 b hb⟩
      · show s.attempts + 1 ≤ 1
        omega
      · intro hf
        exact absurd (show (true : Bool) = false from hf) (by decide)
    | true =>
      cases hoc : s.outcome with
      | none =>
        simp only [step, hps, hoc]
        refine ⟨h1, ?_, fun _ => h3 hoc, ?_⟩
        · intro hf
          exact absurd (show (true : Bool) = false from hf) (by decide)
        · intro b hb
          have hb' : b ∈ s.observed := hb
          rw [h3 hoc] at hb'
          cases hb'
      | some b0 =>
        simp only [step, hps, hoc]
        refine ⟨h1, ?_, ?_, ?_⟩
        · intro hf
          exact absurd (show (true : Bool) = false from hf) (by decide)
        · intro hn
          exact Option.noConfusion (show some b0 = (none : Option Bool) from hn)
        · intro b hb
          show some b0 = some b
          rcases List.mem_cons.mp (show b ∈ b0 :: s.observed from hb) with h | h
          · rw [h]
          · have := h4 b h
            rw [hoc] at this
            exact this
  | resolve b0 =>
    by_cases hc : s.promiseSet = true ∧ s.outcome = none
    · simp only [step]
      rw [if_pos hc]
      have hob := h3 hc.2
      refine ⟨h1, ?_, ?_, ?_⟩
      · intro hf
        have hf' : s.promiseSet = false := hf
        rw [hc.1] at hf'
        exact absurd hf' (by decide)
      · intro hn
        exact Option.noConfusion (show some b0 = (none : Option Bool) from hn)
      · intro b hb
        have hb' : b ∈ List.replicate s.pending b0 ++ s.observed := hb
        rw [hob, List.append_nil] at hb'
        show some b0 = some b
        exact congrArg some (List.eq_of_mem_replicate hb').symm
    · simp only [step]
      rw [if_neg hc]
      exact ⟨h1, h2, h3, h4⟩

/-- The invariant holds after any history of events. -/
lemma inv_run (es : List Event) : Inv (run es) := by
  suffices h : ∀ s, Inv s → Inv (es.foldl step s) from h start inv_start
  induction es with
  | nil => intro s hs; exact hs
  | cons e t ih => intro s hs; exact ih (step s e) (inv_step s e hs)

/-- C1: over every history of interleaved invocation prologues and promise
settlements on one process, `initializeApp` is started at most once, and
every invocation that finished awaiting observed exactly the one settled
outcome of that single attempt — no duplicate route registration or
fallback installation can occur. -/
theorem vercel_init_at_most_once (es : List Event) :
    (run es).attempts ≤ 1 ∧
    (∀ b, b ∈ (run es).observed → (run es).outcome = some b) :=
  ⟨(inv_run es).1, (inv_run es).2.2.2⟩

/-- Witness for C1 on a concrete history: two concurrent arrivals, a
successful settlement, then a warm arrival. -/
theorem vercel_init_at_most_once_instance :
    (run [Event.arrive, Event.arrive, Event.resolve true, Event.arrive]).attempts ≤ 1 ∧
    (run [Event.arrive, Event.arrive, Event.resolve true, Event.arrive]).outcome = some true :=
  ⟨(vercel_init_at_most_once _).1,
   (vercel_init_at_most_once [Event.arrive, Event.arrive, Event.resolve true, Event.arrive]).2
     true (by decide)⟩

end InitCoord

namespace SessionMgr

/-- C8: validation performed after the stored absolute expiry of a session
has passed fails, even though the session record is still present in
storage — expiry is decided at validation time, not by a cleanup sweep. -/
theorem expired_session_validation_fails (store : List AdminSession) (token : String)
    (now : Nat) (s : AdminSession)
    (hfind : store.find? (fun x => x.token == token) = some s)
    (hexp : s.expiresAt < now) :
    s ∈ store ∧ validateSession store token now = none := by
  refine ⟨List.mem_of_find?_eq_some hfind, ?_⟩
  simp [validateSession, hfind, hexp]

/-- Witness for C8 at a concrete store and a time past the expiry. -/
theorem expired_session_validation_fails_instance :
    ({ token := "tok123", adminId := 7, expiresAt := 100 } : AdminSession) ∈ sessStore ∧
    validateSession sessStore "tok123" 101 = none :=
  expired_session_validation_fails sessStore "tok123" 101 _ rfl (by decide)

end SessionMgr
